import Mathlib

/-
  Verification of the LearnLoop frontend gamification logic.

  Shallow embedding of:
  - the level derivation and XP progress computation of the buddy page
    (frontend/components/BuddyAvatar.tsx, BuddyPage);
  - the evolution-title mapping and notification logic of the stats provider
    (frontend/context/stats-context.tsx);
  - the chat error handling (frontend/components/BuddyChat.tsx);
  - the material stage progress (BuddyAvatar.tsx, BrainGrowingIndicator);
  - the voice-chat processing guard (BuddyAvatar.tsx, handleUserSpeech and
    the speech handlers), as an event step function;
  - the gamification XP-delta and confusion-score formulas, which have no
    implementation in the repository and are modelled from the spec.
-/

namespace LearnLoop

/-
  Level derivation on the buddy page, BuddyAvatar.tsx (BuddyPage):
    const correctLevel = Math.min(1 + Math.floor(stats.total_xp / 100), 1000)
    const currentLevelMinXP = (correctLevel - 1) * 100
    const nextLevelMinXP = correctLevel >= 1000 ? currentLevelMinXP : correctLevel * 100
    const xpProgress = Math.max(0, stats.total_xp - currentLevelMinXP)
    const xpRequiredForLevel = Math.max(1, nextLevelMinXP - currentLevelMinXP)
  and the progress bar value:
    correctLevel >= 1000 ? 100 : (xpProgress / xpRequiredForLevel) * 100
  Modelled on natural numbers (the claims concern non-negative total_xp,
  where Math.floor of the quotient is natural division and Math.max(0, a - b)
  is truncated subtraction).
-/

/-- Level recomputed from total XP on the buddy page: linear progression,
100 XP per level, capped at 1000. -/
def correctLevel (totalXP : ℕ) : ℕ := min (1 + totalXP / 100) 1000

/-- Minimum XP of the current level on the buddy page. -/
def currentLevelMinXP (totalXP : ℕ) : ℕ := (correctLevel totalXP - 1) * 100

/-- Minimum XP of the next level on the buddy page. -/
def nextLevelMinXP (totalXP : ℕ) : ℕ :=
  if 1000 ≤ correctLevel totalXP then currentLevelMinXP totalXP else correctLevel totalXP * 100

/-- XP gained within the current level on the buddy page. -/
def xpProgress (totalXP : ℕ) : ℕ := max 0 (totalXP - currentLevelMinXP totalXP)

/-- XP required to complete the current level on the buddy page. -/
def xpRequiredForLevel (totalXP : ℕ) : ℕ :=
  max 1 (nextLevelMinXP totalXP - currentLevelMinXP totalXP)

/-- Value passed to the progress bar on the buddy page. -/
def progressValue (totalXP : ℕ) : ℚ :=
  if 1000 ≤ correctLevel totalXP then 100
  else (xpProgress totalXP : ℚ) / (xpRequiredForLevel totalXP : ℚ) * 100

/-- Evolution title mapping of the stats provider, stats-context.tsx:
getLevelTitle returns Seedling below level 4, Sprout below 8, Teenager
below 13, Expert below 17, and Master from 17 on. -/
def getLevelTitle (lvl : ℤ) : String :=
  if lvl < 4 then "Seedling"
  else if lvl < 8 then "Sprout"
  else if lvl < 13 then "Teenager"
  else if lvl < 17 then "Expert"
  else "Master"

/-- C1, counterexample: the buddy page derives level 6 from totalXP = 500,
not level 2 as the tiered threshold table would give. -/
theorem correctLevel_500_ne_tiered_level2 : correctLevel 500 = 6 ∧ (6 : ℕ) ≠ 2 := by decide

/-- C1, amended: the implemented level derivation is linear with thresholds
(n - 1) * 100 and a cap at level 1000: for 1 ≤ n ≤ 1000, the derived level
is at least n exactly when totalXP reaches (n - 1) * 100, so it is the
largest such n; totalXP = 500 yields level 6 and 499 yields level 5. -/
theorem correctLevel_is_greatest_linear_threshold (xp n : ℕ) (h1 : 1 ≤ n) (h2 : n ≤ 1000) :
    (n ≤ correctLevel xp ↔ (n - 1) * 100 ≤ xp) ∧ correctLevel 500 = 6 ∧ correctLevel 499 = 5 := by
  refine ⟨?_, by decide, by decide⟩
  unfold correctLevel
  rw [le_min_iff]
  constructor
  · rintro ⟨ha, _⟩
    have hd : n - 1 ≤ xp / 100 := by omega
    exact (Nat.le_div_iff_mul_le (by norm_num)).mp hd
  · intro hmul
    have hd : n - 1 ≤ xp / 100 := (Nat.le_div_iff_mul_le (by norm_num)).mpr hmul
    exact ⟨by omega, h2⟩

/-- C1, witness: the amended theorem instantiated at xp = 500, n = 6. -/
theorem correctLevel_is_greatest_linear_threshold_witness :
    ((6 ≤ correctLevel 500 ↔ (6 - 1) * 100 ≤ 500) ∧ correctLevel 500 = 6 ∧ correctLevel 499 = 5) :=
  correctLevel_is_greatest_linear_threshold 500 6 (by decide) (by decide)

/-- C2, counterexample: getLevelTitle maps level 3 to Seedling, not Sprout,
and no level maps to Sapling (level 5 maps to Sprout). -/
theorem getLevelTitle_three_is_seedling_not_sprout :
    getLevelTitle 3 = "Seedling" ∧ getLevelTitle 3 ≠ "Sprout" ∧ getLevelTitle 5 ≠ "Sapling" := by
  decide

/-- C2, amended: the implemented stage mapping is a pure function of the
level with intervals: below 4 Seedling, 4 to 7 Sprout, 8 to 12 Teenager,
13 to 16 Expert, 17 and above Master. -/
theorem getLevelTitle_interval_mapping (lvl : ℤ) :
    (lvl < 4 → getLevelTitle lvl = "Seedling") ∧
    (4 ≤ lvl → lvl < 8 → getLevelTitle lvl = "Sprout") ∧
    (8 ≤ lvl → lvl < 13 → getLevelTitle lvl = "Teenager") ∧
    (13 ≤ lvl → lvl < 17 → getLevelTitle lvl = "Expert") ∧
    (17 ≤ lvl → getLevelTitle lvl = "Master") := by
  unfold getLevelTitle
  refine ⟨fun h => ?_, fun h h2 => ?_, fun h h2 => ?_, fun h h2 => ?_, fun h => ?_⟩ <;>
    split_ifs <;> first | rfl | (exfalso; omega)

/-- C2, witness: the amended mapping instantiated at levels 3 and 10. -/
theorem getLevelTitle_interval_mapping_witness :
    getLevelTitle 3 = "Seedling" ∧ getLevelTitle 10 = "Teenager" :=
  ⟨(getLevelTitle_interval_mapping 3).1 (by decide),
   (getLevelTitle_interval_mapping 10).2.2.1 (by decide) (by decide)⟩

/-- C9: for every non-negative total_xp, the buddy page XP progress is
non-negative, the XP required for the level is at least 1, the derived
level never exceeds 1000, and at level 1000 the progress bar value is
exactly 100. -/
theorem buddy_page_progress_safe (xp : ℕ) :
    0 ≤ xpProgress xp ∧ 1 ≤ xpRequiredForLevel xp ∧ correctLevel xp ≤ 1000 ∧
      (correctLevel xp = 1000 → progressValue xp = 100) := by
  refine ⟨Nat.zero_le _, le_max_left 1 _, min_le_right _ _, fun h => ?_⟩
  unfold progressValue
  rw [if_pos h.ge]

/-- C9, witness: the safety theorem instantiated at totalXP = 100000, which
reaches the level cap. -/
theorem buddy_page_progress_safe_witness :
    0 ≤ xpProgress 100000 ∧ 1 ≤ xpRequiredForLevel 100000 ∧ correctLevel 100000 ≤ 1000 ∧
      progressValue 100000 = 100 := by
  obtain ⟨a, b, c, d⟩ := buddy_page_progress_safe 100000
  exact ⟨a, b, c, d (by decide)⟩

/-
  Stats provider, stats-context.tsx (StatsProvider.fetchStats): on a
  successful fetch, when it is not the first load and a previous snapshot
  exists, the provider emits up to four notifications by comparing the new
  snapshot against the previous one, in the order XP rise, level rise,
  evolution path rise, streak rise; then it stores the new snapshot and
  clears the first-load flag. Each template string of addNotification is
  embedded as one constructor carrying the interpolated data.
-/

/-- Profile snapshot as fetched by the stats provider (the fields the
notification comparisons read). -/
structure Stats where
  level : ℤ
  total_xp : ℤ
  streak_days : ℤ
deriving DecidableEq

/-- Notifications the stats provider can emit on a fetch, one constructor
per addNotification call site, carrying the interpolated values. -/
inductive Notification where
  | xpGained (amount : ℤ)
  | levelUp (level : ℤ)
  | evolution (title : String)
  | streakRise (days : ℤ)
deriving DecidableEq

/-- Notifications emitted by fetchStats when comparing the previous
snapshot with the newly fetched one (the non-first-load branch). -/
def notificationsFor (prev next : Stats) : List Notification :=
  (if prev.total_xp < next.total_xp then [Notification.xpGained (next.total_xp - prev.total_xp)] else []) ++
  (if prev.level < next.level then [Notification.levelUp next.level] else []) ++
  (if getLevelTitle prev.level ≠ getLevelTitle next.level ∧ prev.level < next.level then
    [Notification.evolution (getLevelTitle next.level)] else []) ++
  (if prev.streak_days < next.streak_days then [Notification.streakRise next.streak_days] else [])

/-- State kept by the stats provider across fetches: the isFirstLoad ref
and the lastStatsRef snapshot. -/
structure FetchState where
  isFirstLoad : Bool
  lastStats : Option Stats
deriving DecidableEq

/-- One successful fetch: emits notifications only when it is not the
first load and a previous snapshot exists, then records the new snapshot
and clears the first-load flag. -/
def applyFetch (st : FetchState) (next : Stats) : FetchState × List Notification :=
  let notifs :=
    match st.isFirstLoad, st.lastStats with
    | false, some prev => notificationsFor prev next
    | _, _ => []
  (⟨false, some next⟩, notifs)

/-- Count of evolution notifications in an emitted batch. -/
def countEvolution (l : List Notification) : ℕ :=
  l.countP fun n => match n with | Notification.evolution _ => true | _ => false

/-- C4: an evolution notification is emitted only when the title mapped
from the new level differs from the title mapped from the previous level;
with unchanged mapped title, no evolution notification ever fires. -/
theorem evolution_notification_requires_title_change (prev next : Stats) (title : String)
    (h : Notification.evolution title ∈ notificationsFor prev next) :
    getLevelTitle next.level ≠ getLevelTitle prev.level := by
  by_cases h3 : getLevelTitle prev.level ≠ getLevelTitle next.level ∧ prev.level < next.level
  · exact fun hEq => h3.1 hEq.symm
  · exfalso
    unfold notificationsFor at h
    by_cases h1 : prev.total_xp < next.total_xp <;>
      by_cases h2 : prev.level < next.level <;>
      by_cases h4 : prev.streak_days < next.streak_days <;>
      simp [h1, h2, h3, h4] at h <;>
      exact h3 ⟨h.1, h2⟩

/-- C4, witness: a concrete fetch pair where the evolution notification
fires and the mapped titles indeed differ. -/
theorem evolution_notification_requires_title_change_witness :
    Notification.evolution "Sprout" ∈ notificationsFor ⟨3, 0, 0⟩ ⟨4, 0, 0⟩ ∧
      getLevelTitle (4 : ℤ) ≠ getLevelTitle (3 : ℤ) :=
  ⟨by decide, evolution_notification_requires_title_change ⟨3, 0, 0⟩ ⟨4, 0, 0⟩ "Sprout" (by decide)⟩

/-- C8: after the first load, an XP-gained notification fires exactly when
the new total_xp strictly exceeds the previously fetched one, and its
announced amount is exactly the difference; on a first-load fetch no
notification fires at all. -/
theorem xp_notification_iff_xp_increase (prev next : Stats) (a : ℤ) (stOpt : Option Stats) :
    (Notification.xpGained a ∈ (applyFetch ⟨false, some prev⟩ next).2 ↔
      prev.total_xp < next.total_xp ∧ a = next.total_xp - prev.total_xp) ∧
    (applyFetch ⟨true, stOpt⟩ next).2 = [] := by
  constructor
  · show Notification.xpGained a ∈ notificationsFor prev next ↔ _
    unfold notificationsFor
    by_cases h1 : prev.total_xp < next.total_xp <;>
      by_cases h2 : prev.level < next.level <;>
      by_cases h3 : getLevelTitle prev.level ≠ getLevelTitle next.level ∧ prev.level < next.level <;>
      by_cases h4 : prev.streak_days < next.streak_days <;>
      simp [h1, h2, h3, h4]
  · rfl

/-- C8, witness: a concrete pair of consecutive snapshots where the XP
notification fires with the exact difference. -/
theorem xp_notification_iff_xp_increase_witness :
    Notification.xpGained 30 ∈ (applyFetch ⟨false, some ⟨1, 100, 0⟩⟩ ⟨1, 130, 0⟩).2 :=
  (xp_notification_iff_xp_increase ⟨1, 100, 0⟩ ⟨1, 130, 0⟩ 30 none).1.mpr ⟨by decide, by decide⟩

/-
  Gamification XP delta. The reward engine itself is not part of the
  repository sources (the frontend only displays backend-provided values);
  it is modelled from the spec below.
-/

/-- Modelled from the spec: the activity types known to the gamification
engine (the engine code is not in the repository). -/
inductive ActivityType where
  | explanation_completed
  | check_passed_first
  | check_passed_second
  | teach_back_success
  | topic_mastered
deriving DecidableEq

/-- Modelled from the spec: base XP per activity type (the engine code is
not in the repository). -/
def baseXP : ActivityType → ℕ
  | ActivityType.explanation_completed => 20
  | ActivityType.check_passed_first => 50
  | ActivityType.check_passed_second => 30
  | ActivityType.teach_back_success => 100
  | ActivityType.topic_mastered => 150

/-- Modelled from the spec: streak bonus, min(currentStreak, 10) * 10. -/
def streakBonus (currentStreak : ℕ) : ℕ := min currentStreak 10 * 10

/-- Modelled from the spec: perfect-session bonus, 50 when perfect. -/
def perfectBonus (perfectSession : Bool) : ℕ := if perfectSession then 50 else 0

/-- Modelled from the spec: total XP delta for one activity event. -/
def totalXPDelta (t : ActivityType) (currentStreak : ℕ) (perfectSession : Bool) : ℕ :=
  baseXP t + streakBonus currentStreak + perfectBonus perfectSession

/-- C3, counterexample: the scenario delta is 250 and totalXP becomes 730,
but the level the code derives from 730 is 8, not 2. -/
theorem topic_mastered_scenario_level_not_two :
    totalXPDelta ActivityType.topic_mastered 5 true = 250 ∧
    480 + totalXPDelta ActivityType.topic_mastered 5 true = 730 ∧
    correctLevel 730 = 8 ∧ correctLevel 730 ≠ 2 := by decide

/-- C3, amended: from totalXP = 480, a topic_mastered event with streak 5
and a perfect session yields delta 250 and totalXP 730; under the linear
level formula of the code the level goes from 5 to 8, the mapped title
goes from Sprout to Teenager, and the stats provider emits exactly one
evolution notification for that transition. -/
theorem topic_mastered_scenario_actual :
    totalXPDelta ActivityType.topic_mastered 5 true = 250 ∧
    480 + totalXPDelta ActivityType.topic_mastered 5 true = 730 ∧
    correctLevel 480 = 5 ∧ correctLevel 730 = 8 ∧
    getLevelTitle 5 = "Sprout" ∧ getLevelTitle 8 = "Teenager" ∧
    countEvolution (notificationsFor ⟨5, 480, 5⟩ ⟨8, 730, 5⟩) = 1 := by decide

/-
  Confusion detector. The detector has no implementation in the
  repository sources; it is modelled from the spec (section 4.2), over
  exact rationals.
-/

/-- Clamp a rational to the unit interval. -/
def clamp01 (x : ℚ) : ℚ := max 0 (min 1 x)

/-- Modelled from the spec: normalized response-time deviation, 0 at or
below the per-difficulty baseline, rising linearly to 1 at 30 seconds
beyond the baseline (the detector code is not in the repository). -/
def normalizedResponseTimeDeviation (responseTimeSeconds baseline : ℚ) : ℚ :=
  clamp01 ((responseTimeSeconds - baseline) / 30)

/-- Modelled from the spec: normalized incorrect attempts,
min(incorrectAttempts / 3, 1). -/
def normalizedIncorrectAttempts (incorrectAttempts : ℕ) : ℚ :=
  min ((incorrectAttempts : ℚ) / 3) 1

/-- Modelled from the spec: the weighted confusion score (the detector
code is not in the repository). -/
def confusionScore (semanticSimilarity responseTimeSeconds baseline : ℚ)
    (incorrectAttempts : ℕ) (sentimentConfusionScore : ℚ) : ℚ :=
  0.4 * (1 - clamp01 semanticSimilarity)
    + 0.2 * normalizedResponseTimeDeviation responseTimeSeconds baseline
    + 0.3 * normalizedIncorrectAttempts incorrectAttempts
    + 0.1 * sentimentConfusionScore

/-- Lower clamp bound. -/
theorem clamp01_nonneg (x : ℚ) : 0 ≤ clamp01 x := le_max_left 0 _

/-- Upper clamp bound. -/
theorem clamp01_le_one (x : ℚ) : clamp01 x ≤ 1 := max_le (by norm_num) (min_le_left 1 x)

/-- C5, counterexample: for the concrete signals of the spec scenario the
modelled score is 13/15, not 0.90: 45 seconds is only 25 seconds beyond
the 20-second baseline, so the time deviation is 5/6, not 1. -/
theorem confusionScore_concrete_not_ninety :
    confusionScore 0.2 45 20 3 0.8 = 13 / 15 ∧ confusionScore 0.2 45 20 3 0.8 ≠ 9 / 10 := by
  norm_num [confusionScore, clamp01, normalizedResponseTimeDeviation,
    normalizedIncorrectAttempts]

/-- C5, amended: the confusion score is the stated weighted sum, a pure
function of the four signals; for sentiment in the unit interval it always
lies in the unit interval; the spec scenario signals give 13/15 (about
0.867, still above the 0.7 sub-topic-breakdown threshold), not 0.90. -/
theorem confusionScore_range_and_concrete (s t b : ℚ) (a : ℕ) (scs : ℚ)
    (h0 : 0 ≤ scs) (h1 : scs ≤ 1) :
    (0 ≤ confusionScore s t b a scs ∧ confusionScore s t b a scs ≤ 1) ∧
    confusionScore 0.2 45 20 3 0.8 = 13 / 15 := by
  have hc1 : 0 ≤ clamp01 s := clamp01_nonneg s
  have hc2 : clamp01 s ≤ 1 := clamp01_le_one s
  have hr1 : 0 ≤ normalizedResponseTimeDeviation t b := clamp01_nonneg _
  have hr2 : normalizedResponseTimeDeviation t b ≤ 1 := clamp01_le_one _
  have ha1 : 0 ≤ normalizedIncorrectAttempts a :=
    le_min (by positivity) (by norm_num)
  have ha2 : normalizedIncorrectAttempts a ≤ 1 := min_le_right _ _
  refine ⟨⟨?_, ?_⟩, ?_⟩
  · unfold confusionScore; linarith
  · unfold confusionScore; linarith
  · norm_num [confusionScore, clamp01, normalizedResponseTimeDeviation,
      normalizedIncorrectAttempts]

/-- C5, witness: the amended theorem instantiated at the spec scenario
signals. -/
theorem confusionScore_range_and_concrete_witness :
    (0 ≤ confusionScore 0.2 45 20 3 0.8 ∧ confusionScore 0.2 45 20 3 0.8 ≤ 1) ∧
    confusionScore 0.2 45 20 3 0.8 = 13 / 15 :=
  confusionScore_range_and_concrete 0.2 45 20 3 0.8 (by norm_num) (by norm_num)

/-
  Chat error handling, BuddyChat.tsx (handleSubmit): on a non-ok response
  with status 429 the appended model message interpolates
  errorData.retry_after (defaulting to 60) into the user-visible text; any
  other non-ok status throws and the catch branch appends the generic
  try-again message, as does a network failure. Each distinct template
  string is embedded as one constructor carrying the interpolated data.
-/

/-- Outcome of the chat fetch as handleSubmit distinguishes it. -/
inductive ChatResult where
  | ok (content : String)
  | httpError (status : ℕ) (retryAfter : Option ℕ)
  | networkError
deriving DecidableEq

/-- Message appended to the transcript, one constructor per template
string: the reply content, the rate-limit notice carrying the
interpolated wait seconds, or the generic try-again message. -/
inductive ChatDisplay where
  | reply (content : String)
  | rateLimitNotice (waitSeconds : ℕ)
  | genericFailure
deriving DecidableEq

/-- Response handling of handleSubmit in BuddyChat.tsx. -/
def handleChatResult : ChatResult → ChatDisplay
  | ChatResult.ok c => ChatDisplay.reply c
  | ChatResult.httpError status retryAfter =>
      if status = 429 then ChatDisplay.rateLimitNotice (retryAfter.getD 60)
      else ChatDisplay.genericFailure
  | ChatResult.networkError => ChatDisplay.genericFailure

/-- C6, counterexample: a failed 429 request is not shown as the generic
try-again message, and the user-visible message depends on the internal
retry_after value, which is therefore exposed. -/
theorem rate_limit_message_exposes_retry_after :
    handleChatResult (ChatResult.httpError 429 (some 30)) = ChatDisplay.rateLimitNotice 30 ∧
    handleChatResult (ChatResult.httpError 429 (some 30)) ≠ ChatDisplay.genericFailure ∧
    handleChatResult (ChatResult.httpError 429 (some 30)) ≠
      handleChatResult (ChatResult.httpError 429 (some 90)) := by decide

/-- C6, amended: every failed request other than HTTP 429 (and every
network failure) shows the generic try-again message, independent of the
error detail; a 429 failure shows the rate-limit notice embedding the
retry-after value, defaulting to 60. -/
theorem chat_failure_messages (status : ℕ) (r : Option ℕ) :
    (status ≠ 429 → handleChatResult (ChatResult.httpError status r) = ChatDisplay.genericFailure) ∧
    handleChatResult ChatResult.networkError = ChatDisplay.genericFailure ∧
    handleChatResult (ChatResult.httpError 429 r) = ChatDisplay.rateLimitNotice (r.getD 60) := by
  refine ⟨fun h => ?_, rfl, ?_⟩
  · show (if status = 429 then _ else _) = _
    rw [if_neg h]
  · rfl

/-- C6, witness: the amended theorem instantiated at status 500 with a
concrete retry-after value. -/
theorem chat_failure_messages_witness :
    handleChatResult (ChatResult.httpError 500 (some 30)) = ChatDisplay.genericFailure :=
  (chat_failure_messages 500 (some 30)).1 (by decide)

/-
  Voice interaction guard, BuddyAvatar.tsx. The relevant flags:
  isProcessingRef (processing), recognition active (listening), speech
  synthesis active (speaking); inFlight counts pending chat requests.
  Events, one per handler occurrence:
  - speechResult: recognition.onresult calling handleUserSpeech, which
    returns at once when processing is set, else sets processing and
    issues the chat request;
  - respondOk: the chat response arrives, speak(responseText) is started,
    processing stays set until the utterance ends;
  - respond429: the 429 branch, speak(message) is started and processing
    is cleared immediately;
  - respondError: the catch branch, speak(errorMessage) is started,
    processing is cleared, and a listening restart is scheduled;
  - utteranceEnd: utterance.onend, clears processing and schedules a
    listening restart;
  - listenStart: startListening, a no-op while recognition is active or
    processing is set.
-/

/-- Flags of the voice component together with the number of chat
requests currently in flight. -/
structure BuddyState where
  processing : Bool
  listening : Bool
  speaking : Bool
  inFlight : ℕ
deriving DecidableEq

/-- Events of the voice component. -/
inductive BuddyEvent where
  | speechResult
  | respondOk
  | respond429
  | respondError
  | utteranceEnd
  | listenStart
deriving DecidableEq

/-- One event step of the voice component; events whose code-site guard
fails leave the state unchanged. -/
def buddyStep (s : BuddyState) : BuddyEvent → BuddyState
  | BuddyEvent.speechResult =>
      if s.listening then
        if s.processing then { s with listening := false }
        else { s with listening := false, processing := true, inFlight := s.inFlight + 1 }
      else s
  | BuddyEvent.respondOk =>
      if 1 ≤ s.inFlight then { s with inFlight := s.inFlight - 1, speaking := true } else s
  | BuddyEvent.respond429 =>
      if 1 ≤ s.inFlight then
        { s with inFlight := s.inFlight - 1, speaking := true, processing := false }
      else s
  | BuddyEvent.respondError =>
      if 1 ≤ s.inFlight then
        { s with inFlight := s.inFlight - 1, speaking := true, processing := false }
      else s
  | BuddyEvent.utteranceEnd =>
      if s.speaking then { s with speaking := false, processing := false } else s
  | BuddyEvent.listenStart =>
      if s.listening ∨ s.processing then s else { s with listening := true }

/-- Run a list of events from a state. -/
def buddyRun (s : BuddyState) (es : List BuddyEvent) : BuddyState := es.foldl buddyStep s

/-- Initial state of the voice component. -/
def initBuddyState : BuddyState := ⟨false, false, false, 0⟩

/-- C7: a feasible event sequence reaches two chat requests in flight:
after an error response, the stale utterance-end handler of the spoken
error message clears the processing flag while the next request is still
pending, so a further speech result starts a second concurrent request.
The guard itself holds per submission: a speech result while processing
is set starts no request. -/
theorem double_in_flight_trace :
    (buddyRun initBuddyState
      [BuddyEvent.listenStart, BuddyEvent.speechResult, BuddyEvent.respondError,
       BuddyEvent.listenStart, BuddyEvent.speechResult, BuddyEvent.utteranceEnd,
       BuddyEvent.listenStart, BuddyEvent.speechResult]).inFlight = 2 ∧
    (∀ s : BuddyState, s.processing = true → (buddyStep s BuddyEvent.speechResult).inFlight = s.inFlight) := by
  refine ⟨by decide, fun s hs => ?_⟩
  unfold buddyStep
  by_cases hl : s.listening
  · rw [if_pos hl, if_pos hs]
  · rw [if_neg hl]

/-
  Material stage progress, BuddyAvatar.tsx (BrainGrowingIndicator):
    getStageProgress looks the learning_stage up in the record
    uploaded 0, buddy_taught 33, user_taught 66, mastered 100,
    defaulting to 0 for any other stage, and totalProgress averages the
    stage progress over all materials (0 with no materials).
  The materials page (src/unnamed/part_005) additionally displays an
  expert stage beyond mastered in its evolution path; that stage is not a
  key of the record.
-/

/-- Stage progress per learning stage, defaulting to 0 for unknown
stages. -/
def getStageProgress (stage : String) : ℕ :=
  if stage = "uploaded" then 0
  else if stage = "buddy_taught" then 33
  else if stage = "user_taught" then 66
  else if stage = "mastered" then 100
  else 0

/-- Aggregated brain-growth percentage: average stage progress over the
materials, 0 when there are none. -/
def totalProgress (stages : List String) : ℚ :=
  if stages = [] then 0
  else (stages.map fun m => (getStageProgress m : ℚ)).sum / stages.length

/-- C10: getStageProgress is total over arbitrary stage strings, returns
100 for mastered, 66 for user_taught, 33 for buddy_taught, 0 for uploaded
and 0 for every other stage, in particular for expert, which therefore
contributes 0 to the aggregated brain-growth percentage. -/
theorem getStageProgress_values (s : String)
    (hs : s ∉ (["uploaded", "buddy_taught", "user_taught", "mastered"] : List String)) :
    getStageProgress s = 0 ∧ getStageProgress "mastered" = 100 ∧
    getStageProgress "user_taught" = 66 ∧ getStageProgress "buddy_taught" = 33 ∧
    getStageProgress "uploaded" = 0 ∧ getStageProgress "expert" = 0 ∧
    totalProgress ["mastered", "expert"] = 50 := by
  simp only [List.mem_cons, List.not_mem_nil, or_false, not_or] at hs
  obtain ⟨n1, n2, n3, n4⟩ := hs
  refine ⟨?_, by decide, by decide, by decide, by decide, by decide, ?_⟩
  · unfold getStageProgress
    rw [if_neg n1, if_neg n2, if_neg n3, if_neg n4]
  · have h1 : getStageProgress "mastered" = 100 := by decide
    have h2 : getStageProgress "expert" = 0 := by decide
    unfold totalProgress
    rw [if_neg (by decide)]
    simp [h1, h2]
    norm_num

/-- C10, witness: the theorem instantiated at the expert stage. -/
theorem getStageProgress_values_witness :
    getStageProgress "expert" = 0 ∧ getStageProgress "mastered" = 100 :=
  have h := getStageProgress_values "expert" (by decide)
  ⟨h.1, h.2.1⟩

end LearnLoop
